import Mathlib

/-!
Shallow embedding of `src/test-bestbuy-api.py`, a probe script that
registers a throwaway user against a deployed e-commerce backend and then
calls the authenticated BestBuy integration health-check endpoint.

The HTTP world is modelled by an `Env` supplying the two responses (or a
transport-level exception message).  The probe itself becomes a pure
function from `Env` (and the current whole-second timestamp) to a `Run`:
the list of HTTP requests it issued, the structured console output it
printed, and the process exit code it set (the script never sets one).
Each constructor of `Out` corresponds to one `print` statement of the
script, carrying the dynamic values interpolated there.
-/

namespace BestBuyProbe

/-- JSON values, as produced by `response.json()` in the script.  Numbers are
modelled as integers (no claim involves fractional numbers). -/
inductive Json where
  | null : Json
  | bool : Bool → Json
  | num : Int → Json
  | str : String → Json
  | arr : List Json → Json
  | obj : List (String × Json) → Json

/-- Python truthiness of a JSON value, as used by `if result.get(...)`:
`None`, `False`, `0`, `""`, `[]` and `{}` are falsy, everything else truthy. -/
def truthy : Json → Bool
  | .null => false
  | .bool b => b
  | .num n => n != 0
  | .str s => !s.isEmpty
  | .arr xs => !xs.isEmpty
  | .obj l => !l.isEmpty

/-- Truthiness of the result of `dict.get(key)`: a missing key yields `None`,
which is falsy. -/
def truthyOpt : Option Json → Bool
  | none => false
  | some j => truthy j

/-- `dict.get(key)`: look a key up in a JSON object's field list. -/
def jGet : List (String × Json) → String → Option Json
  | [], _ => none
  | (k, v) :: rest, key => if k = key then some v else jGet rest key

mutual

/-- Python `str()` of a JSON value, as interpolated by an f-string
(`f"Bearer {auth_token}"`). -/
def pyStr : Json → String
  | .null => "None"
  | .bool true => "True"
  | .bool false => "False"
  | .num n => toString n
  | .str s => s
  | .arr xs => "[" ++ pyStrList xs ++ "]"
  | .obj l => "\x7b" ++ pyStrFields l ++ "\x7d"

/-- Comma-separated rendering of the elements of a JSON array. -/
def pyStrList : List Json → String
  | [] => ""
  | [x] => pyStr x
  | x :: y :: rest => pyStr x ++ ", " ++ pyStrList (y :: rest)

/-- Comma-separated rendering of the fields of a JSON object. -/
def pyStrFields : List (String × Json) → String
  | [] => ""
  | [(k, v)] => k ++ ": " ++ pyStr v
  | (k, v) :: kv :: rest => k ++ ": " ++ pyStr v ++ ", " ++ pyStrFields (kv :: rest)

end

/-- An HTTP response as seen through the `requests` library: the status code,
the raw body text, and the result of calling `.json()` on it — `Except.error`
carries the message of the exception `.json()` raises on an unparsable body. -/
structure Resp where
  status_code : Nat
  text : String
  json : Except String Json

/-- An HTTP request issued by the probe. -/
structure Request where
  method : String
  url : String
  headers : List (String × String)
  body : Option Json

/-- The environment the probe runs against: the outcome of each of the two
HTTP calls.  `Except.error` is a transport-level exception (connection
failure, timeout, ...) carrying the exception's message. -/
structure Env where
  register : Except String Resp
  bestbuy : Except String Resp

/-- One console line printed by the script.  Each constructor corresponds to
one `print` statement of `test_bestbuy_connection`, carrying the values the
f-string interpolates there. -/
inductive Out where
  | banner
  | creatingUser
  | userCreated
  | userCreationFailed (body : String)
  | registrationError (msg : String)
  | testingBestBuy
  | statusCode (code : Nat)
  | response (body : Json)
  | testPassed
  | platform (value : Json)
  | apiKey (value : Json)
  | accountData (value : Json)
  | testFailed (message : Option Json)
  | troubleshootingHeader
  | suggestion (key : String) (value : Json)
  | bestbuyError (msg : String)

/-- The observable behaviour of one run of the script: the HTTP requests it
attempted (in order), the console lines it printed, and the exit code it
explicitly set (the script never calls `sys.exit`, so it is always `none`:
the process ends by returning normally). -/
structure Run where
  requests : List Request
  output : List Out
  exitCode : Option Nat

/-- `BASE_URL` literal at the top of the script. -/
def BASE_URL : String := "https://ecommerce-portal-production.up.railway.app/api"

/-- The generated test identity's email,
`f"bestbuy-test-\x7bint(time.time())\x7d@example.com"`, where `now` is the
whole-second timestamp `int(time.time())`. -/
def testEmail (now : Nat) : String :=
  "bestbuy-test-" ++ toString now ++ "@example.com"

/-- The `test_user` JSON body sent to the registration endpoint. -/
def test_user (now : Nat) : Json :=
  .obj [("email", .str (testEmail now)), ("password", .str "testpass123"),
        ("firstName", .str "BestBuy"), ("lastName", .str "Tester")]

/-- The registration request,
`requests.post(f"\x7bBASE_URL\x7d/auth/register", json=test_user)`. -/
def registerRequest (now : Nat) : Request :=
  ⟨"POST", BASE_URL ++ "/auth/register", [], some (test_user now)⟩

/-- The integration health-check request,
`requests.get(f"\x7bBASE_URL\x7d/bestbuy/test", headers=headers)` with
`headers = \x7b"Authorization": f"Bearer \x7bauth_token\x7d"\x7d`. -/
def bestbuyRequest (tok : Json) : Request :=
  ⟨"GET", BASE_URL ++ "/bestbuy/test",
   [("Authorization", "Bearer " ++ pyStr tok)], none⟩

/-- `register_response.json()["token"]`: every way this expression can raise
(JSON decode failure, missing key, non-object body) is an `Except.error`,
caught by the script's `except Exception` handler. -/
def tokenOf (resp : Resp) : Except String Json :=
  match resp.json with
  | .error e => .error e
  | .ok (.obj fields) =>
      match jGet fields "token" with
      | some v => .ok v
      | none => .error "KeyError: token"
  | .ok _ => .error "TypeError: indices must be integers"

/-- The console lines printed by step 2's `try` block, given the response to
the health-check call (lines 38–56 of the script).  An exception raised
mid-block cuts the remaining prints and appends the `except` handler's
line. -/
def step2Out (resp : Resp) : List Out :=
  match resp.json with
  | .error e => [.bestbuyError e]
  | .ok result =>
      [.statusCode resp.status_code, .response result] ++
      match result with
      | .obj fields =>
          if truthyOpt (jGet fields "success") then
            [.testPassed,
             .platform ((jGet fields "platform").getD (.str "Unknown")),
             .apiKey ((jGet fields "apiKey").getD (.str "Hidden"))] ++
            (if truthyOpt (jGet fields "data") then
               [.accountData ((jGet fields "data").getD .null)]
             else [])
          else
            [.testFailed (jGet fields "message")] ++
            (if truthyOpt (jGet fields "troubleshooting") then
               [.troubleshootingHeader] ++
               (match (jGet fields "troubleshooting").getD .null with
                | .obj ts => ts.map fun kv => Out.suggestion kv.1 kv.2
                | _ => [.bestbuyError "AttributeError: items"])
             else [])
      | _ => [.bestbuyError "AttributeError: get"]

/-- The whole script, `test_bestbuy_connection`, as a function from the HTTP
environment and the invocation timestamp to the run's observable
behaviour. -/
def test_bestbuy_connection (env : Env) (now : Nat) : Run :=
  let intro := [Out.banner, Out.creatingUser]
  match env.register with
  | .error e => ⟨[registerRequest now], intro ++ [.registrationError e], none⟩
  | .ok resp =>
      if resp.status_code = 201 then
        match tokenOf resp with
        | .error e =>
            ⟨[registerRequest now], intro ++ [.registrationError e], none⟩
        | .ok tok =>
            let out1 := intro ++ [Out.userCreated, Out.testingBestBuy]
            match env.bestbuy with
            | .error e =>
                ⟨[registerRequest now, bestbuyRequest tok],
                 out1 ++ [.bestbuyError e], none⟩
            | .ok bresp =>
                ⟨[registerRequest now, bestbuyRequest tok],
                 out1 ++ step2Out bresp, none⟩
      else
        ⟨[registerRequest now], intro ++ [.userCreationFailed resp.text], none⟩

/-- C1: if the registration POST returns status 201 with a JSON object body
whose `token` field is the string `s`, the probe issues the GET to
`BASE_URL ++ "/bestbuy/test"` carrying exactly the header
`Authorization: Bearer s`, the token passed through unchanged. -/
theorem c1_token_passed_unchanged (env : Env) (now : Nat) (resp : Resp)
    (fields : List (String × Json)) (s : String)
    (hreg : env.register = .ok resp) (hstatus : resp.status_code = 201)
    (hjson : resp.json = .ok (.obj fields))
    (htok : jGet fields "token" = some (.str s)) :
    ∃ r ∈ (test_bestbuy_connection env now).requests,
      r.method = "GET" ∧ r.url = BASE_URL ++ "/bestbuy/test" ∧
      r.headers = [("Authorization", "Bearer " ++ s)] := by
  have htok2 : tokenOf resp = .ok (.str s) := by
    simp [tokenOf, hjson, htok]
  have hs : pyStr (.str s) = s := rfl
  rcases env with ⟨reg, bb⟩
  simp only at hreg
  subst hreg
  cases bb with
  | error e =>
      exact ⟨bestbuyRequest (.str s),
        by simp [test_bestbuy_connection, hstatus, htok2],
        rfl, rfl, by simp [bestbuyRequest, hs]⟩
  | ok bresp =>
      exact ⟨bestbuyRequest (.str s),
        by simp [test_bestbuy_connection, hstatus, htok2],
        rfl, rfl, by simp [bestbuyRequest, hs]⟩

/-- Environment used to witness C1: registration succeeds with token "abc". -/
def envC1 : Env :=
  ⟨.ok ⟨201, "", .ok (.obj [("token", .str "abc")])⟩,
   .ok ⟨200, "", .ok (.obj [("success", .bool true)])⟩⟩

/-- Witness for C1 at a concrete environment. -/
theorem c1_token_passed_unchanged_witness :
    ∃ r ∈ (test_bestbuy_connection envC1 0).requests,
      r.method = "GET" ∧ r.url = BASE_URL ++ "/bestbuy/test" ∧
      r.headers = [("Authorization", "Bearer " ++ "abc")] :=
  c1_token_passed_unchanged envC1 0 ⟨201, "", .ok (.obj [("token", .str "abc")])⟩
    [("token", .str "abc")] "abc" rfl rfl rfl rfl

/-- C2: if the registration call returns any status other than 201, the probe
prints the response body text, terminates the run, and the only HTTP request
of the run is the registration POST — the second call is never attempted. -/
theorem c2_non201_aborts (env : Env) (now : Nat) (resp : Resp)
    (hreg : env.register = .ok resp) (hstatus : resp.status_code ≠ 201) :
    (test_bestbuy_connection env now).output =
      [.banner, .creatingUser, .userCreationFailed resp.text] ∧
    (test_bestbuy_connection env now).requests = [registerRequest now] ∧
    (registerRequest now).url = BASE_URL ++ "/auth/register" := by
  rcases env with ⟨reg, bb⟩
  simp only at hreg
  subst hreg
  refine ⟨?_, ?_, rfl⟩ <;> simp [test_bestbuy_connection, hstatus]

/-- Environment used to witness C2: registration returns status 400. -/
def envC2 : Env :=
  ⟨.ok ⟨400, "Bad Request", .ok .null⟩, .ok ⟨200, "", .ok .null⟩⟩

/-- Witness for C2 at a concrete environment. -/
theorem c2_non201_aborts_witness :
    (test_bestbuy_connection envC2 0).output =
      [.banner, .creatingUser, .userCreationFailed "Bad Request"] ∧
    (test_bestbuy_connection envC2 0).requests = [registerRequest 0] ∧
    (registerRequest 0).url = BASE_URL ++ "/auth/register" :=
  c2_non201_aborts envC2 0 ⟨400, "Bad Request", .ok .null⟩ rfl (by decide)

/-- C8: on every execution path the probe returns normally with no explicit
exit code set — there is no distinct failure exit code. -/
theorem c8_no_exit_code (env : Env) (now : Nat) :
    (test_bestbuy_connection env now).exitCode = none := by
  rcases env with ⟨reg, bb⟩
  cases reg with
  | error e => rfl
  | ok resp =>
      by_cases hs : resp.status_code = 201
      · cases htok : tokenOf resp with
        | error e => simp [test_bestbuy_connection, hs, htok]
        | ok tok => cases bb <;> simp [test_bestbuy_connection, hs, htok]
      · simp [test_bestbuy_connection, hs]

/-- C6: a transport-level exception on the registration call prints the
exception message and ends the run with only the one attempted request; a
transport-level exception on the health-check call prints the exception
message and ends the run after the two attempted requests.  Either way the
run terminates cleanly (exit code unset). -/
theorem c6_transport_exceptions (env : Env) (now : Nat) (e : String) :
    (env.register = .error e →
       (test_bestbuy_connection env now).output =
         [.banner, .creatingUser, .registrationError e] ∧
       (test_bestbuy_connection env now).requests = [registerRequest now] ∧
       (test_bestbuy_connection env now).exitCode = none) ∧
    (∀ resp tok, env.register = .ok resp → resp.status_code = 201 →
       tokenOf resp = .ok tok → env.bestbuy = .error e →
       (test_bestbuy_connection env now).output =
         [.banner, .creatingUser, .userCreated, .testingBestBuy,
          .bestbuyError e] ∧
       (test_bestbuy_connection env now).requests =
         [registerRequest now, bestbuyRequest tok] ∧
       (test_bestbuy_connection env now).exitCode = none) := by
  rcases env with ⟨reg, bb⟩
  constructor
  · intro hreg
    simp only at hreg
    subst hreg
    exact ⟨rfl, rfl, rfl⟩
  · intro resp tok hreg hstatus htok hbb
    simp only at hreg hbb
    subst hreg
    subst hbb
    refine ⟨?_, ?_, ?_⟩ <;> simp [test_bestbuy_connection, hstatus, htok]

/-- Environment used to witness C6, part 1: the registration call times
out. -/
def envC6a : Env := ⟨.error "timeout", .ok ⟨200, "", .ok .null⟩⟩

/-- Environment used to witness C6, part 2: registration succeeds and the
health-check call times out. -/
def envC6b : Env :=
  ⟨.ok ⟨201, "", .ok (.obj [("token", .str "abc")])⟩, .error "timeout"⟩

/-- Witness for C6 at concrete environments, one per exception site. -/
theorem c6_transport_exceptions_witness :
    ((test_bestbuy_connection envC6a 0).output =
       [.banner, .creatingUser, .registrationError "timeout"] ∧
     (test_bestbuy_connection envC6a 0).requests = [registerRequest 0] ∧
     (test_bestbuy_connection envC6a 0).exitCode = none) ∧
    ((test_bestbuy_connection envC6b 0).output =
       [.banner, .creatingUser, .userCreated, .testingBestBuy,
        .bestbuyError "timeout"] ∧
     (test_bestbuy_connection envC6b 0).requests =
       [registerRequest 0, bestbuyRequest (.str "abc")] ∧
     (test_bestbuy_connection envC6b 0).exitCode = none) :=
  ⟨(c6_transport_exceptions envC6a 0 "timeout").1 rfl,
   (c6_transport_exceptions envC6b 0 "timeout").2
     ⟨201, "", .ok (.obj [("token", .str "abc")])⟩ (.str "abc") rfl rfl rfl rfl⟩

/-- C9: a 201 registration response whose body is not valid JSON, or whose
JSON object lacks a `token` field, does not crash the probe: the extraction
failure lands in the same `except` handler as transport errors (the same
`registrationError` console line), and the second call is never attempted. -/
theorem c9_malformed_registration_body (env : Env) (now : Nat) (resp : Resp)
    (hreg : env.register = .ok resp) (hstatus : resp.status_code = 201) :
    (∀ e, resp.json = .error e →
       (test_bestbuy_connection env now).output =
         [.banner, .creatingUser, .registrationError e] ∧
       (test_bestbuy_connection env now).requests = [registerRequest now]) ∧
    (∀ fields, resp.json = .ok (.obj fields) → jGet fields "token" = none →
       (test_bestbuy_connection env now).output =
         [.banner, .creatingUser, .registrationError "KeyError: token"] ∧
       (test_bestbuy_connection env now).requests = [registerRequest now]) := by
  rcases env with ⟨reg, bb⟩
  simp only at hreg
  subst hreg
  constructor
  · intro e hjson
    have htok : tokenOf resp = .error e := by simp [tokenOf, hjson]
    constructor <;> simp [test_bestbuy_connection, hstatus, htok]
  · intro fields hjson hnotok
    have htok : tokenOf resp = .error "KeyError: token" := by
      simp [tokenOf, hjson, hnotok]
    constructor <;> simp [test_bestbuy_connection, hstatus, htok]

/-- Environment used to witness C9, part 1: 201 with an unparsable body. -/
def envC9a : Env :=
  ⟨.ok ⟨201, "not json", .error "JSONDecodeError"⟩, .ok ⟨200, "", .ok .null⟩⟩

/-- Environment used to witness C9, part 2: 201 with a JSON object lacking
`token`. -/
def envC9b : Env :=
  ⟨.ok ⟨201, "", .ok (.obj [("ok", .bool true)])⟩, .ok ⟨200, "", .ok .null⟩⟩

/-- Witness for C9 at concrete environments, one per malformation. -/
theorem c9_malformed_registration_body_witness :
    ((test_bestbuy_connection envC9a 0).output =
       [.banner, .creatingUser, .registrationError "JSONDecodeError"] ∧
     (test_bestbuy_connection envC9a 0).requests = [registerRequest 0]) ∧
    ((test_bestbuy_connection envC9b 0).output =
       [.banner, .creatingUser, .registrationError "KeyError: token"] ∧
     (test_bestbuy_connection envC9b 0).requests = [registerRequest 0]) :=
  ⟨(c9_malformed_registration_body envC9a 0 ⟨201, "not json", .error "JSONDecodeError"⟩
      rfl rfl).1 "JSONDecodeError" rfl,
   (c9_malformed_registration_body envC9b 0 ⟨201, "", .ok (.obj [("ok", .bool true)])⟩
      rfl rfl).2 [("ok", .bool true)] rfl rfl⟩

/-- C3: the reporting branch of the health-check step is selected solely by
the body's `success` field.  First conjunct: two responses with the same
parsed body produce the same console lines after the status-code line, for
any two status codes.  Second conjunct: the PASSED branch is taken exactly
when the body's `success` field is truthy. -/
theorem c3_branch_by_success_only (s1 s2 : Nat) (t1 t2 : String) (j : Json)
    (resp : Resp) (fields : List (String × Json))
    (hj : resp.json = .ok (.obj fields)) :
    (step2Out ⟨s1, t1, .ok j⟩).tail = (step2Out ⟨s2, t2, .ok j⟩).tail ∧
    (Out.testPassed ∈ step2Out resp ↔ truthyOpt (jGet fields "success") = true) := by
  refine ⟨rfl, ?_⟩
  by_cases htr : truthyOpt (jGet fields "success") = true
  · simp [step2Out, hj, htr]
  · simp only [Bool.not_eq_true] at htr
    simp only [step2Out, hj, htr, Bool.false_eq_true, if_false, htr]
    by_cases htb : truthyOpt (jGet fields "troubleshooting") = true
    · simp only [htb, if_true]
      cases hts : (jGet fields "troubleshooting").getD .null <;>
        simp [List.mem_map]
    · simp only [Bool.not_eq_true] at htb
      simp [htb]

/-- Response used to witness C3: body `\x7bsuccess: true\x7d`. -/
def respC3 : Resp := ⟨502, "", .ok (.obj [("success", .bool true)])⟩

/-- Witness for C3 at concrete statuses and a concrete response. -/
theorem c3_branch_by_success_only_witness :
    (step2Out ⟨200, "", .ok (.obj [("success", .bool true)])⟩).tail =
      (step2Out ⟨502, "x", .ok (.obj [("success", .bool true)])⟩).tail ∧
    (Out.testPassed ∈ step2Out respC3 ↔
      truthyOpt (jGet [("success", Json.bool true)] "success") = true) :=
  c3_branch_by_success_only 200 502 "" "x" (.obj [("success", .bool true)])
    respC3 [("success", .bool true)] rfl

/-- C4: a body whose `success` field is `false` is a handled, non-error
outcome: the `message` field is reported, and when a `troubleshooting`
mapping is present every key/value pair of it is printed as a suggestion
line, with no exception reaching the `except` handler. -/
theorem c4_failure_branch_reporting (resp : Resp)
    (fields : List (String × Json)) (hj : resp.json = .ok (.obj fields))
    (hsucc : jGet fields "success" = some (.bool false)) :
    Out.testFailed (jGet fields "message") ∈ step2Out resp ∧
    ∀ ts, jGet fields "troubleshooting" = some (.obj ts) →
      (∀ kv ∈ ts, Out.suggestion kv.1 kv.2 ∈ step2Out resp) ∧
      ∀ e, Out.bestbuyError e ∉ step2Out resp := by
  have htr : truthyOpt (jGet fields "success") = false := by
    simp [hsucc, truthyOpt, truthy]
  constructor
  · simp [step2Out, hj, htr]
  · intro ts hts
    cases ts with
    | nil =>
        have htb : truthyOpt (jGet fields "troubleshooting") = false := by
          simp [hts, truthyOpt, truthy]
        constructor
        · intro kv hkv
          simp at hkv
        · intro e
          simp [step2Out, hj, htr, htb]
    | cons kv0 rest =>
        have htb : truthyOpt (jGet fields "troubleshooting") = true := by
          simp [hts, truthyOpt, truthy]
        constructor
        · intro kv hkv
          simp [step2Out, hj, htr, htb, hts, List.mem_map]
          refine ⟨by simp [truthyOpt, truthy], ?_⟩
          rcases List.mem_cons.mp hkv with h | h
          · subst h
            exact Or.inl ⟨rfl, rfl⟩
          · exact Or.inr h
        · intro e
          simp [step2Out, hj, htr, htb, hts, List.mem_map]

/-- Response used to witness C4: `success: false` with a message and one
troubleshooting entry. -/
def respC4 : Resp :=
  ⟨200, "",
   .ok (.obj [("success", .bool false), ("message", .str "bad key"),
              ("troubleshooting", .obj [("check", .str "your credentials")])])⟩

/-- Witness for C4 at a concrete response. -/
theorem c4_failure_branch_reporting_witness :
    Out.testFailed (some (.str "bad key")) ∈ step2Out respC4 ∧
    Out.suggestion "check" (.str "your credentials") ∈ step2Out respC4 ∧
    ∀ e, Out.bestbuyError e ∉ step2Out respC4 :=
  have h := c4_failure_branch_reporting respC4
    [("success", .bool false), ("message", .str "bad key"),
     ("troubleshooting", .obj [("check", .str "your credentials")])] rfl rfl
  have h2 := h.2 [("check", .str "your credentials")] rfl
  ⟨h.1, h2.1 ("check", .str "your credentials") (by simp), h2.2⟩

/-- C5 counterexample: for the body
`\x7bsuccess: true, data: \x7b\x7d\x7d` the `data` field is present, yet the
probe's output (computed in full below) contains no account-data line — the
script prints `data` only when `result.get("data")` is truthy, and an empty
object is falsy in Python.  So "exactly when a `data` field is present" is
false as stated. -/
theorem c5_counterexample :
    jGet [("success", Json.bool true), ("data", Json.obj [])] "data" =
      some (Json.obj []) ∧
    step2Out ⟨200, "", .ok (.obj [("success", .bool true), ("data", .obj [])])⟩ =
      [.statusCode 200,
       .response (.obj [("success", .bool true), ("data", .obj [])]),
       .testPassed, .platform (.str "Unknown"), .apiKey (.str "Hidden")] :=
  ⟨rfl, rfl⟩

/-- C5 as amended: for a body with `success: true` the output includes the
platform and API-key indicator lines, and it includes an account-data line
exactly when a `data` field is present **with a truthy value** (non-null,
non-zero, non-empty); any printed account-data line shows exactly the body's
`data` field. -/
theorem c5_success_reporting (resp : Resp) (fields : List (String × Json))
    (hj : resp.json = .ok (.obj fields))
    (hsucc : jGet fields "success" = some (.bool true)) :
    Out.platform ((jGet fields "platform").getD (.str "Unknown")) ∈ step2Out resp ∧
    Out.apiKey ((jGet fields "apiKey").getD (.str "Hidden")) ∈ step2Out resp ∧
    ((∃ d, Out.accountData d ∈ step2Out resp) ↔
       truthyOpt (jGet fields "data") = true) ∧
    (∀ d, Out.accountData d ∈ step2Out resp → jGet fields "data" = some d) := by
  have htr : truthyOpt (jGet fields "success") = true := by
    simp [hsucc, truthyOpt, truthy]
  by_cases hd : truthyOpt (jGet fields "data") = true
  · have hds : ∃ v, jGet fields "data" = some v := by
      cases hv : jGet fields "data" with
      | none => rw [hv] at hd; simp [truthyOpt] at hd
      | some v => exact ⟨v, rfl⟩
    obtain ⟨v, hv⟩ := hds
    refine ⟨?_, ?_, ?_, ?_⟩
    · simp [step2Out, hj, htr, hd]
    · simp [step2Out, hj, htr, hd]
    · simp only [hd, iff_true]
      exact ⟨(jGet fields "data").getD .null, by simp [step2Out, hj, htr, hd]⟩
    · intro d hmem
      simp [step2Out, hj, htr, hd] at hmem
      rw [hv] at hmem ⊢
      simp at hmem
      rw [hmem]
  · have hd2 : truthyOpt (jGet fields "data") = false := by
      simpa using hd
    refine ⟨?_, ?_, ?_, ?_⟩
    · simp [step2Out, hj, htr, hd2]
    · simp [step2Out, hj, htr, hd2]
    · simp only [hd2, Bool.false_eq_true, iff_false]
      rintro ⟨d, hmem⟩
      simp [step2Out, hj, htr, hd2] at hmem
    · intro d hmem
      simp [step2Out, hj, htr, hd2] at hmem

/-- Response used to witness the amended C5: `success: true` with platform,
API-key and a non-empty `data` object. -/
def respC5 : Resp :=
  ⟨200, "",
   .ok (.obj [("success", .bool true), ("platform", .str "BestBuy"),
              ("apiKey", .str "hidden"), ("data", .obj [("x", .num 1)])])⟩

/-- Witness for the amended C5 at a concrete response. -/
theorem c5_success_reporting_witness :
    Out.platform (.str "BestBuy") ∈ step2Out respC5 ∧
    Out.apiKey (.str "hidden") ∈ step2Out respC5 ∧
    ((∃ d, Out.accountData d ∈ step2Out respC5) ↔
       truthyOpt (jGet [("success", Json.bool true), ("platform", Json.str "BestBuy"),
         ("apiKey", Json.str "hidden"), ("data", Json.obj [("x", Json.num 1)])] "data")
         = true) ∧
    (∀ d, Out.accountData d ∈ step2Out respC5 →
       jGet [("success", Json.bool true), ("platform", Json.str "BestBuy"),
         ("apiKey", Json.str "hidden"), ("data", Json.obj [("x", Json.num 1)])] "data"
         = some d) :=
  c5_success_reporting respC5
    [("success", .bool true), ("platform", .str "BestBuy"),
     ("apiKey", .str "hidden"), ("data", .obj [("x", .num 1)])] rfl rfl

/-- Looking a key up in the concatenation of two field lists finds the first
list's binding when it has one, and the second list's otherwise. -/
theorem jGet_append (l1 l2 : List (String × Json)) (k : String) :
    jGet (l1 ++ l2) k =
      match jGet l1 k with
      | some v => some v
      | none => jGet l2 k := by
  induction l1 with
  | nil => simp [jGet]
  | cons kv rest ih =>
      by_cases hk : kv.1 = k
      · simp [jGet, hk]
      · simpa [jGet, hk] using ih

/-- C10: a body in which `success` is absent, or present with a falsy value,
takes the failure-reporting branch: the PASSED line is never printed and the
`message` field (a `None` placeholder when absent) is reported.  Moreover a
body without `success` is, from the branch onward (after the status-code and
body-dump lines), indistinguishable from the same body with
`success: false` added. -/
theorem c10_missing_success_is_failure (st : Nat) (tx : String)
    (fields : List (String × Json)) (v : Json) :
    (jGet fields "success" = none →
       Out.testFailed (jGet fields "message") ∈
         step2Out ⟨st, tx, .ok (.obj fields)⟩ ∧
       Out.testPassed ∉ step2Out ⟨st, tx, .ok (.obj fields)⟩ ∧
       (step2Out ⟨st, tx, .ok (.obj fields)⟩).drop 2 =
         (step2Out ⟨st, tx,
            .ok (.obj (fields ++ [("success", .bool false)]))⟩).drop 2) ∧
    (jGet fields "success" = some v → truthy v = false →
       Out.testFailed (jGet fields "message") ∈
         step2Out ⟨st, tx, .ok (.obj fields)⟩ ∧
       Out.testPassed ∉ step2Out ⟨st, tx, .ok (.obj fields)⟩) := by
  have notPassed : ∀ g : List (String × Json),
      truthyOpt (jGet g "success") = false →
      Out.testPassed ∉ step2Out ⟨st, tx, .ok (.obj g)⟩ := by
    intro g htr
    simp only [step2Out, htr, Bool.false_eq_true, if_false]
    by_cases htb : truthyOpt (jGet g "troubleshooting") = true
    · simp only [htb, if_true]
      cases hts : (jGet g "troubleshooting").getD .null <;> simp [List.mem_map]
    · have : truthyOpt (jGet g "troubleshooting") = false := by simpa using htb
      simp [this]
  constructor
  · intro habs
    have htr : truthyOpt (jGet fields "success") = false := by
      simp [habs, truthyOpt]
    have hext : ∀ k2, k2 ≠ "success" →
        jGet (fields ++ [("success", Json.bool false)]) k2 = jGet fields k2 := by
      intro k2 hk2
      rw [jGet_append]
      cases jGet fields k2 with
      | none =>
          show jGet [("success", Json.bool false)] k2 = none
          simp [jGet, Ne.symm hk2]
      | some w => simp
    have htrx : truthyOpt (jGet (fields ++ [("success", Json.bool false)]) "success")
        = false := by
      rw [jGet_append, habs]
      simp [jGet, truthyOpt, truthy]
    refine ⟨by simp [step2Out, htr], notPassed fields htr, ?_⟩
    simp only [step2Out, htr, htrx, Bool.false_eq_true, if_false]
    rw [hext "message" (by simp), hext "troubleshooting" (by simp)]
    rfl
  · intro hv htv
    have htr : truthyOpt (jGet fields "success") = false := by
      simp [hv, truthyOpt, htv]
    exact ⟨by simp [step2Out, htr], notPassed fields htr⟩

/-- Fields used to witness C10: no `success` key, a falsy `success`
variant, and a message. -/
def fieldsC10 : List (String × Json) := [("message", .str "m")]

/-- Witness for C10 at a concrete body without `success` (part 1) and with
`success: 0`, a falsy non-boolean value (part 2). -/
theorem c10_missing_success_is_failure_witness :
    (Out.testFailed (some (.str "m")) ∈ step2Out ⟨200, "", .ok (.obj fieldsC10)⟩ ∧
     Out.testPassed ∉ step2Out ⟨200, "", .ok (.obj fieldsC10)⟩ ∧
     (step2Out ⟨200, "", .ok (.obj fieldsC10)⟩).drop 2 =
       (step2Out ⟨200, "",
          .ok (.obj (fieldsC10 ++ [("success", .bool false)]))⟩).drop 2) ∧
    (Out.testFailed (some (.str "m")) ∈
       step2Out ⟨200, "", .ok (.obj [("success", .num 0), ("message", .str "m")])⟩ ∧
     Out.testPassed ∉
       step2Out ⟨200, "", .ok (.obj [("success", .num 0), ("message", .str "m")])⟩) :=
  ⟨(c10_missing_success_is_failure 200 "" fieldsC10 .null).1 rfl,
   (c10_missing_success_is_failure 200 ""
      [("success", .num 0), ("message", .str "m")] (.num 0)).2 rfl rfl⟩

/-- The decimal digit characters of `n`, most significant first: the
reference shape of `Nat.repr`'s character list, used to reason about the
timestamp suffix of the generated email. -/
def decChars (n : Nat) : List Char :=
  if _h : n < 10 then [Nat.digitChar n]
  else decChars (n / 10) ++ [Nat.digitChar (n % 10)]
decreasing_by exact Nat.div_lt_self (by omega) (by omega)

/-- `decChars` always ends in the character of the last digit. -/
theorem decChars_eq_concat (k : Nat) :
    decChars k = (if k < 10 then [] else decChars (k / 10)) ++
      [Nat.digitChar (k % 10)] := by
  rw [decChars]
  by_cases h : k < 10
  · rw [dif_pos h, if_pos h, Nat.mod_eq_of_lt h]
    rfl
  · rw [dif_neg h, if_neg h]

/-- The digit list of a number is never empty. -/
theorem decChars_ne_nil (n : Nat) : decChars n ≠ [] := by
  rw [decChars_eq_concat]
  simp

/-- `Nat.digitChar` is injective on single digits. -/
theorem digitChar_inj10 :
    ∀ a < 10, ∀ b < 10, Nat.digitChar a = Nat.digitChar b → a = b := by
  decide

/-- With enough fuel, `Nat.toDigitsCore` computes `decChars` (plus the
accumulator). -/
theorem toDigitsCore_eq_decChars :
    ∀ (f n : Nat) (ds : List Char), n < 10 ^ (f + 1) →
      Nat.toDigitsCore 10 (f + 1) n ds = decChars n ++ ds := by
  intro f
  induction f with
  | zero =>
      intro n ds h
      have hn : n < 10 := by simpa using h
      have h0 : n / 10 = 0 := Nat.div_eq_of_lt hn
      show (if n / 10 = 0 then Nat.digitChar (n % 10) :: ds
            else Nat.toDigitsCore 10 0 (n / 10) (Nat.digitChar (n % 10) :: ds)) =
          decChars n ++ ds
      rw [if_pos h0, decChars]
      rw [dif_pos hn, Nat.mod_eq_of_lt hn]
      rfl
  | succ f ih =>
      intro n ds h
      show (if n / 10 = 0 then Nat.digitChar (n % 10) :: ds
            else Nat.toDigitsCore 10 (f + 1) (n / 10) (Nat.digitChar (n % 10) :: ds)) =
          decChars n ++ ds
      by_cases h0 : n / 10 = 0
      · have hn : n < 10 := by omega
        rw [if_pos h0, decChars]
        rw [dif_pos hn, Nat.mod_eq_of_lt hn]
        rfl
      · rw [if_neg h0]
        have hlt : n / 10 < 10 ^ (f + 1) := by
          apply (Nat.div_lt_iff_lt_mul (by norm_num)).mpr
          calc n < 10 ^ (f + 1 + 1) := h
          _ = 10 ^ (f + 1) * 10 := by rw [pow_succ]
        rw [ih (n / 10) (Nat.digitChar (n % 10) :: ds) hlt]
        rw [decChars_eq_concat n, if_neg (by omega : ¬n < 10)]
        simp

/-- The character data of `Nat.repr` is exactly `decChars`. -/
theorem natRepr_data (n : Nat) : (Nat.repr n).data = decChars n := by
  have h : n < 10 ^ (n + 1) :=
    lt_of_lt_of_le (Nat.lt_pow_self (by norm_num) n)
      (Nat.pow_le_pow_right (by norm_num) (Nat.le_succ n))
  show (Nat.toDigitsCore 10 (n + 1) n []).asString.data = decChars n
  rw [toDigitsCore_eq_decChars n n [] h]
  show decChars n ++ [] = decChars n
  simp

/-- Distinct naturals have distinct digit lists. -/
theorem decChars_injective : ∀ m n : Nat, decChars m = decChars n → m = n := by
  intro m
  induction m using Nat.strong_induction_on with
  | _ m ih =>
      intro n h
      rw [decChars_eq_concat m, decChars_eq_concat n] at h
      obtain ⟨h1, h2⟩ := List.append_inj' h rfl
      have hmod : m % 10 = n % 10 :=
        digitChar_inj10 (m % 10) (Nat.mod_lt m (by omega)) (n % 10)
          (Nat.mod_lt n (by omega)) (by simpa using h2)
      by_cases hm : m < 10 <;> by_cases hn : n < 10
      · omega
      · rw [if_pos hm, if_neg hn] at h1
        exact absurd h1.symm (decChars_ne_nil _)
      · rw [if_neg hm, if_pos hn] at h1
        exact absurd h1 (decChars_ne_nil _)
      · rw [if_neg hm, if_neg hn] at h1
        have := ih (m / 10) (Nat.div_lt_self (by omega) (by omega)) (n / 10) h1
        omega

/-- C7: the generated test-identity email is injective in the whole-second
timestamp, so two invocations started more than one second apart (hence with
distinct `int(time.time())` values) generate different emails. -/
theorem c7_email_injective (t1 t2 : Nat) (h : t1 ≠ t2) :
    testEmail t1 ≠ testEmail t2 := by
  intro he
  apply h
  have hd := congrArg String.data he
  have hsplit : ∀ t : Nat, (testEmail t).data =
      "bestbuy-test-".data ++ (Nat.repr t).data ++ "@example.com".data :=
    fun t => rfl
  rw [hsplit, hsplit] at hd
  have h1 := List.append_cancel_right hd
  have h2 := List.append_cancel_left h1
  apply decChars_injective
  rw [← natRepr_data, ← natRepr_data, h2]

/-- Witness for C7 at two concrete timestamps. -/
theorem c7_email_injective_witness :
    (3 : Nat) ≠ 5 ∧ testEmail 3 ≠ testEmail 5 :=
  ⟨by decide, c7_email_injective 3 5 (by decide)⟩

end BestBuyProbe
